import Mathlib

/-!
Shallow embedding of `src/piphub/cli.py` (the PipHub script launcher).

The launcher has two entry points, `main_bash` and `main_powershell`.
Each locates an embedded script, writes it to a temporary file, runs it
with an OS-selected interpreter, mirrors the child's exit code, and
deletes the temporary file in a `finally` block.

The embedding models the host environment (`Env`): which interpreter
binaries resolve, whether the packaged script is present, the child's
exit code, the working directory and the locale's preferred text
encoding.  Filesystem and process effects are threaded through an
explicit trace state (`St`); Python exceptions are values of `PyExn`,
with `SystemExit` distinguished because it is not an `Exception`
subclass and therefore escapes the `except Exception` handler.
-/

namespace Piphub

/-- The Python exceptions that can arise in `cli.py`:
`FileNotFoundError` (from `get_script_content` or from `subprocess.run`
when the executable does not resolve), `subprocess.CalledProcessError`
(from `check=True` on a non-zero child exit), `OSError` (e.g. from
`os.chmod`), and `SystemExit` (raised by `sys.exit`). -/
inductive PyExn where
  | fileNotFound (msg : String)
  | calledProcessError (returncode : Nat)
  | osError (msg : String)
  | systemExit (code : Nat)
  deriving DecidableEq

/-- Whether the exception is an instance of Python's `Exception` class.
`SystemExit` derives from `BaseException` but not from `Exception`,
so `except Exception` does not catch it. -/
def PyExn.isException : PyExn → Bool
  | .systemExit _ => false
  | _ => true

/-- The `str(e)` text used by the generic `except Exception` handler. -/
def PyExn.message : PyExn → String
  | .fileNotFound m => m
  | .calledProcessError rc => "Command returned non-zero exit status " ++ toString rc
  | .osError m => m
  | .systemExit c => toString c

/-- The packaged `piphub/scripts` directory: content of each bundled
script, or `none` when the file is absent from the installation. -/
structure Fs where
  bashScript : Option String
  psScript : Option String
  deriving DecidableEq

/-- Host environment of one invocation: platform identity, which
executables resolve on PATH, whether `os.chmod` succeeds, the exit code
the child would return, the caller's working directory, the path the
temp-file facility hands out, and the locale's preferred encoding
(used by Python text files opened without an explicit `encoding`). -/
structure Env where
  fs : Fs
  isWindows : Bool
  wslAvailable : Bool
  bashAvailable : Bool
  pwshAvailable : Bool
  powershellAvailable : Bool
  chmodOk : Bool
  childExit : Nat
  cwd : String
  tempPath : String
  localeEncoding : String
  deriving DecidableEq

/-- The keyword arguments passed to `tempfile.NamedTemporaryFile`. -/
structure TempFileArgs where
  mode : String
  suffix : String
  delete : Bool
  encoding : Option String
  deriving DecidableEq

/-- `NamedTemporaryFile(mode='w', suffix='.bash', delete=False)` in
`main_bash` — note: no `encoding` keyword is passed. -/
def bashTempFileArgs : TempFileArgs :=
  { mode := "w", suffix := ".bash", delete := false, encoding := none }

/-- `NamedTemporaryFile(mode='w', suffix='.ps1', delete=False,
encoding='utf-8')` in `main_powershell`. -/
def psTempFileArgs : TempFileArgs :=
  { mode := "w", suffix := ".ps1", delete := false, encoding := some "utf-8" }

/-- The codec a Python text-mode file actually uses: the `encoding`
keyword when given, otherwise the locale's preferred encoding. -/
def effectiveEncoding (args : TempFileArgs) (localeEncoding : String) : String :=
  args.encoding.getD localeEncoding

/-- A written temporary file: its text together with the codec the
bytes on disk are encoded with. -/
structure TempFile where
  text : String
  encoding : String
  deriving DecidableEq

/-- Writing content to the temporary file through the text-mode handle. -/
def writeTempFile (args : TempFileArgs) (localeEncoding : String) (c : String) : TempFile :=
  { text := c, encoding := effectiveEncoding args localeEncoding }

/-- Reading the file back with the codec it was written with. -/
def readTempFile (t : TempFile) : String := t.text

/-- Trace state of one invocation: stderr lines in order, temp-file
lifecycle facts, how many times `os.unlink` was attempted, the
`subprocess.run` argument list and `cwd=` argument (if reached), and
the process's current working directory. -/
structure St where
  stderrLines : List String
  tempCreated : Bool
  tempExists : Bool
  tempWritten : Option TempFile
  unlinkCalls : Nat
  attemptedCommand : Option (List String)
  attemptedCwd : Option String
  cwd : String
  deriving DecidableEq

def initSt (env : Env) : St :=
  { stderrLines := [], tempCreated := false, tempExists := false,
    tempWritten := none, unlinkCalls := 0,
    attemptedCommand := none, attemptedCwd := none, cwd := env.cwd }

/-- `print(msg, file=sys.stderr)`. -/
def printToStderr (st : St) (msg : String) : St :=
  { st with stderrLines := st.stderrLines ++ [msg] }

/-- The `strerror` text of a `FileNotFoundError` raised by
`subprocess.run` when the executable does not resolve. -/
def fileNotFoundMessage (nm : String) : String :=
  "[Errno 2] No such file or directory: " ++ nm

/-- `Path(__file__).parent / "scripts" / script_name` rendered as text. -/
def scriptsPath (script_name : String) : String :=
  "piphub/scripts/" ++ script_name

/-- The encoding `get_script_content` passes to `read_text`. -/
def scriptReadEncoding : String := "utf-8"

/-- `get_script_content`: return the bundled script's text, raising
`FileNotFoundError` when `script_path.exists()` is false.  Pure — no
side effects on the trace state. -/
def get_script_content (fs : Fs) (script_name : String) : Except PyExn String :=
  let lookup : Option String :=
    if script_name = "piphub.bash" then fs.bashScript
    else if script_name = "piphub.ps1" then fs.psScript
    else none
  match lookup with
  | none => .error (.fileNotFound
      ("Script " ++ script_name ++ " not found at " ++ scriptsPath script_name))
  | some c => .ok c

/-- `subprocess.run(cmd, cwd=os.getcwd(), check=True)`: records the
argument list and the `cwd=` argument, then either raises
`FileNotFoundError` (executable absent), raises `CalledProcessError`
(non-zero child exit, because of `check=True`), or returns normally. -/
def subprocessRun (available : Bool) (cmd : List String) (childExit : Nat) (st : St) :
    St × Option PyExn :=
  let st := { st with attemptedCommand := some cmd, attemptedCwd := some st.cwd }
  if available then
    if childExit = 0 then (st, none)
    else (st, some (.calledProcessError childExit))
  else
    (st, some (.fileNotFound (fileNotFoundMessage (cmd.headD ""))))

/-- `os.chmod(temp_script, 0o755)`: raises `OSError` when it fails. -/
def osChmod (ok : Bool) (path : String) (st : St) : St × Option PyExn :=
  if ok then (st, none)
  else (st, some (.osError ("chmod: operation not permitted: " ++ path)))

/-- The interpreter decision table of `main_bash`. -/
def bashCommand (isWindows : Bool) (temp_script : String) : List String :=
  if isWindows then ["wsl", "bash", temp_script] else ["bash", temp_script]

/-- The interpreter decision table of `main_powershell`. -/
def powershellCommand (isWindows : Bool) (temp_script : String) : List String :=
  if isWindows then ["powershell", "-ExecutionPolicy", "Bypass", "-File", temp_script]
  else ["pwsh", "-File", temp_script]

def wslMissingMessage : String :=
  "WSL not found. Please install WSL or use piphub-ps instead."

def pwshMissingMessage : String :=
  "PowerShell Core (pwsh) not found. Please install PowerShell Core or use piphub-bash instead."

/-- Body of the inner `try` of `main_bash`: chmod, then the
OS-dispatched `subprocess.run`; on Windows only, `FileNotFoundError`
from the WSL attempt is caught, a guidance line is printed and
`sys.exit(1)` raises `SystemExit(1)`. -/
def bashInner (env : Env) (temp_script : String) (st : St) : St × Option PyExn :=
  match osChmod env.chmodOk temp_script st with
  | (st1, some e) => (st1, some e)
  | (st1, none) =>
    if env.isWindows then
      match subprocessRun env.wslAvailable ["wsl", "bash", temp_script] env.childExit st1 with
      | (st2, some (.fileNotFound _)) =>
          (printToStderr st2 wslMissingMessage, some (.systemExit 1))
      | r => r
    else
      subprocessRun env.bashAvailable ["bash", temp_script] env.childExit st1

/-- Body of the inner `try` of `main_powershell`: Windows runs
`powershell` with no inner handler; non-Windows tries `pwsh`, and
`FileNotFoundError` is caught, guidance printed, `sys.exit(1)`. -/
def psInner (env : Env) (temp_script : String) (st : St) : St × Option PyExn :=
  if env.isWindows then
    subprocessRun env.powershellAvailable
      ["powershell", "-ExecutionPolicy", "Bypass", "-File", temp_script] env.childExit st
  else
    match subprocessRun env.pwshAvailable ["pwsh", "-File", temp_script] env.childExit st with
    | (st1, some (.fileNotFound _)) =>
        (printToStderr st1 pwshMissingMessage, some (.systemExit 1))
    | r => r

/-- The `finally` block: `os.unlink(temp_script)` inside
`try ... except OSError: pass`.  The unlink attempt always happens;
an `OSError` (file already gone) is swallowed, so after the block the
file does not exist either way. -/
def cleanupTemp (st : St) : St :=
  { st with tempExists := false, unlinkCalls := st.unlinkCalls + 1 }

/-- Observable result of one invocation: the process exit code and the
final trace facts. -/
structure Outcome where
  exitCode : Nat
  stderrLines : List String
  tempCreated : Bool
  tempExistsAfter : Bool
  tempWritten : Option TempFile
  unlinkCalls : Nat
  attemptedCommand : Option (List String)
  attemptedCwd : Option String
  finalCwd : String
  deriving DecidableEq

def finishOutcome (st : St) (code : Nat) : Outcome :=
  { exitCode := code, stderrLines := st.stderrLines, tempCreated := st.tempCreated,
    tempExistsAfter := st.tempExists, tempWritten := st.tempWritten,
    unlinkCalls := st.unlinkCalls, attemptedCommand := st.attemptedCommand,
    attemptedCwd := st.attemptedCwd, finalCwd := st.cwd }

/-- The outer handlers: `except CalledProcessError` exits with the
child's returncode; `except Exception` prints a one-line diagnostic and
exits 1; `SystemExit` matches neither and propagates, terminating the
process with its own code; no exception means a normal return, exit 0. -/
def outerHandlers (st : St) (exn : Option PyExn) : Outcome :=
  match exn with
  | none => finishOutcome st 0
  | some (.calledProcessError rc) => finishOutcome st rc
  | some (.systemExit c) => finishOutcome st c
  | some e => finishOutcome (printToStderr st ("Error: " ++ e.message)) 1

/-- `main_bash`: locate `piphub.bash`, materialize it to a temp file,
run the inner body under `try/finally` cleanup, dispatch exceptions
through the outer handlers. -/
def main_bash (env : Env) : Outcome :=
  let st0 := initSt env
  match get_script_content env.fs "piphub.bash" with
  | .error e => outerHandlers st0 (some e)
  | .ok script_content =>
    let tf := writeTempFile bashTempFileArgs env.localeEncoding script_content
    let st1 := { st0 with tempCreated := true, tempExists := true, tempWritten := some tf }
    let res := bashInner env env.tempPath st1
    outerHandlers (cleanupTemp res.1) res.2

/-- `main_powershell`: locate `piphub.ps1`, materialize it (with
`encoding='utf-8'`), run the inner body under `try/finally` cleanup,
dispatch exceptions through the outer handlers. -/
def main_powershell (env : Env) : Outcome :=
  let st0 := initSt env
  match get_script_content env.fs "piphub.ps1" with
  | .error e => outerHandlers st0 (some e)
  | .ok script_content =>
    let tf := writeTempFile psTempFileArgs env.localeEncoding script_content
    let st1 := { st0 with tempCreated := true, tempExists := true, tempWritten := some tf }
    let res := psInner env env.tempPath st1
    outerHandlers (cleanupTemp res.1) res.2

/-- Prefix test on character lists (structural, kernel-reducible). -/
def charsStartWith : List Char → List Char → Bool
  | _, [] => true
  | [], _ :: _ => false
  | a :: as, b :: bs => a == b && charsStartWith as bs

/-- Substring occurrence on character lists. -/
def charsContain : List Char → List Char → Bool
  | [], pat => pat.isEmpty
  | a :: rest, pat => charsStartWith (a :: rest) pat || charsContain rest pat

/-- Substring occurrence test used to state "the message names X". -/
def containsSubstr (s pat : String) : Bool :=
  charsContain s.data pat.data

/-- A sample packaged installation with both scripts present. -/
def sampleFs : Fs :=
  { bashScript := some "echo ok", psScript := some "Write-Host ok" }

/-- A sample healthy host used to instantiate concrete runs: non-Windows,
all interpreters resolvable, chmod succeeds, child exits 0. -/
def sampleEnv : Env :=
  { fs := sampleFs, isWindows := false, wslAvailable := true, bashAvailable := true,
    pwshAvailable := true, powershellAvailable := true, chmodOk := true,
    childExit := 0, cwd := "/home/user", tempPath := "/tmp/tmpx1.bash",
    localeEncoding := "UTF-8" }

/-! ### Closed-form evaluation lemmas, one per reachable scenario -/

/-- `main_bash` when the packaged `piphub.bash` is absent: the
`FileNotFoundError` from the locator reaches the generic handler before
any temp file exists. -/
theorem main_bash_missing_script (env : Env) (hb : env.fs.bashScript = none) :
    main_bash env =
      { exitCode := 1,
        stderrLines := ["Error: Script piphub.bash not found at piphub/scripts/piphub.bash"],
        tempCreated := false, tempExistsAfter := false, tempWritten := none,
        unlinkCalls := 0, attemptedCommand := none, attemptedCwd := none,
        finalCwd := env.cwd } := by
  obtain ⟨⟨bs, ps⟩, w, wsl, ba, pw, posh, ch, ce, cwd, tp, loc⟩ := env
  simp only at hb ⊢
  subst hb
  rfl

/-- `main_bash` when `os.chmod` fails: the `OSError` aborts the inner
body before any `subprocess.run`, cleanup still runs, the generic
handler prints and exits 1. -/
theorem main_bash_chmod_fail (env : Env) (c : String)
    (hb : env.fs.bashScript = some c) (hch : env.chmodOk = false) :
    main_bash env =
      { exitCode := 1,
        stderrLines := ["Error: " ++ ("chmod: operation not permitted: " ++ env.tempPath)],
        tempCreated := true, tempExistsAfter := false,
        tempWritten := some { text := c, encoding := env.localeEncoding },
        unlinkCalls := 1, attemptedCommand := none, attemptedCwd := none,
        finalCwd := env.cwd } := by
  obtain ⟨⟨bs, ps⟩, w, wsl, ba, pw, posh, ch, ce, cwd, tp, loc⟩ := env
  simp only at hb hch ⊢
  subst hb hch
  cases w <;> rfl

/-- `main_bash` on Windows with `wsl` absent: guidance printed, then
`sys.exit(1)`; the `SystemExit` runs the `finally` cleanup and escapes
both outer handlers. -/
theorem main_bash_windows_wsl_missing (env : Env) (c : String)
    (hb : env.fs.bashScript = some c) (hw : env.isWindows = true)
    (hwsl : env.wslAvailable = false) (hch : env.chmodOk = true) :
    main_bash env =
      { exitCode := 1, stderrLines := [wslMissingMessage],
        tempCreated := true, tempExistsAfter := false,
        tempWritten := some { text := c, encoding := env.localeEncoding },
        unlinkCalls := 1, attemptedCommand := some ["wsl", "bash", env.tempPath],
        attemptedCwd := some env.cwd, finalCwd := env.cwd } := by
  obtain ⟨⟨bs, ps⟩, w, wsl, ba, pw, posh, ch, ce, cwd, tp, loc⟩ := env
  simp only at hb hw hwsl hch ⊢
  subst hb hw hwsl hch
  rfl

/-- `main_bash` on Windows with `wsl` present: the child runs and the
launcher's exit code equals the child's, whatever it is. -/
theorem main_bash_windows_run (env : Env) (c : String)
    (hb : env.fs.bashScript = some c) (hw : env.isWindows = true)
    (hwsl : env.wslAvailable = true) (hch : env.chmodOk = true) :
    main_bash env =
      { exitCode := env.childExit, stderrLines := [],
        tempCreated := true, tempExistsAfter := false,
        tempWritten := some { text := c, encoding := env.localeEncoding },
        unlinkCalls := 1, attemptedCommand := some ["wsl", "bash", env.tempPath],
        attemptedCwd := some env.cwd, finalCwd := env.cwd } := by
  obtain ⟨⟨bs, ps⟩, w, wsl, ba, pw, posh, ch, ce, cwd, tp, loc⟩ := env
  simp only at hb hw hwsl hch ⊢
  subst hb hw hwsl hch
  by_cases hce : ce = 0
  · subst hce; rfl
  · simp [main_bash, get_script_content, bashInner, osChmod, subprocessRun, cleanupTemp,
      outerHandlers, finishOutcome, initSt, writeTempFile, effectiveEncoding,
      bashTempFileArgs, hce]

/-- `main_bash` on a non-Windows host with `bash` present: the child
runs and the launcher's exit code equals the child's. -/
theorem main_bash_nonwindows_run (env : Env) (c : String)
    (hb : env.fs.bashScript = some c) (hw : env.isWindows = false)
    (hba : env.bashAvailable = true) (hch : env.chmodOk = true) :
    main_bash env =
      { exitCode := env.childExit, stderrLines := [],
        tempCreated := true, tempExistsAfter := false,
        tempWritten := some { text := c, encoding := env.localeEncoding },
        unlinkCalls := 1, attemptedCommand := some ["bash", env.tempPath],
        attemptedCwd := some env.cwd, finalCwd := env.cwd } := by
  obtain ⟨⟨bs, ps⟩, w, wsl, ba, pw, posh, ch, ce, cwd, tp, loc⟩ := env
  simp only at hb hw hba hch ⊢
  subst hb hw hba hch
  by_cases hce : ce = 0
  · subst hce; rfl
  · simp [main_bash, get_script_content, bashInner, osChmod, subprocessRun, cleanupTemp,
      outerHandlers, finishOutcome, initSt, writeTempFile, effectiveEncoding,
      bashTempFileArgs, hce]

/-- `main_bash` on a non-Windows host with `bash` absent: the
`FileNotFoundError` from `subprocess.run` has no inner handler there,
so the generic `except Exception` handler prints `Error: ...` (which
does not mention `piphub-ps`) and exits 1. -/
theorem main_bash_nonwindows_bash_missing (env : Env) (c : String)
    (hb : env.fs.bashScript = some c) (hw : env.isWindows = false)
    (hba : env.bashAvailable = false) (hch : env.chmodOk = true) :
    main_bash env =
      { exitCode := 1,
        stderrLines := ["Error: " ++ fileNotFoundMessage "bash"],
        tempCreated := true, tempExistsAfter := false,
        tempWritten := some { text := c, encoding := env.localeEncoding },
        unlinkCalls := 1, attemptedCommand := some ["bash", env.tempPath],
        attemptedCwd := some env.cwd, finalCwd := env.cwd } := by
  obtain ⟨⟨bs, ps⟩, w, wsl, ba, pw, posh, ch, ce, cwd, tp, loc⟩ := env
  simp only at hb hw hba hch ⊢
  subst hb hw hba hch
  rfl

/-- `main_powershell` when the packaged `piphub.ps1` is absent. -/
theorem main_powershell_missing_script (env : Env) (hp : env.fs.psScript = none) :
    main_powershell env =
      { exitCode := 1,
        stderrLines := ["Error: Script piphub.ps1 not found at piphub/scripts/piphub.ps1"],
        tempCreated := false, tempExistsAfter := false, tempWritten := none,
        unlinkCalls := 0, attemptedCommand := none, attemptedCwd := none,
        finalCwd := env.cwd } := by
  obtain ⟨⟨bs, ps⟩, w, wsl, ba, pw, posh, ch, ce, cwd, tp, loc⟩ := env
  simp only at hp ⊢
  subst hp
  rfl

/-- `main_powershell` on Windows with `powershell` present: the child
runs with the execution-policy bypass flags and the launcher's exit
code equals the child's. -/
theorem main_powershell_windows_run (env : Env) (c : String)
    (hp : env.fs.psScript = some c) (hw : env.isWindows = true)
    (hposh : env.powershellAvailable = true) :
    main_powershell env =
      { exitCode := env.childExit, stderrLines := [],
        tempCreated := true, tempExistsAfter := false,
        tempWritten := some { text := c, encoding := "utf-8" },
        unlinkCalls := 1,
        attemptedCommand := some ["powershell", "-ExecutionPolicy", "Bypass", "-File", env.tempPath],
        attemptedCwd := some env.cwd, finalCwd := env.cwd } := by
  obtain ⟨⟨bs, ps⟩, w, wsl, ba, pw, posh, ch, ce, cwd, tp, loc⟩ := env
  simp only at hp hw hposh ⊢
  subst hp hw hposh
  by_cases hce : ce = 0
  · subst hce; rfl
  · simp [main_powershell, get_script_content, psInner, subprocessRun, cleanupTemp,
      outerHandlers, finishOutcome, initSt, writeTempFile, effectiveEncoding,
      psTempFileArgs, hce]

/-- `main_powershell` on Windows with `powershell` absent: the Windows
branch has no inner handler, so the generic handler prints `Error: ...`
and exits 1. -/
theorem main_powershell_windows_missing (env : Env) (c : String)
    (hp : env.fs.psScript = some c) (hw : env.isWindows = true)
    (hposh : env.powershellAvailable = false) :
    main_powershell env =
      { exitCode := 1,
        stderrLines := ["Error: " ++ fileNotFoundMessage "powershell"],
        tempCreated := true, tempExistsAfter := false,
        tempWritten := some { text := c, encoding := "utf-8" },
        unlinkCalls := 1,
        attemptedCommand := some ["powershell", "-ExecutionPolicy", "Bypass", "-File", env.tempPath],
        attemptedCwd := some env.cwd, finalCwd := env.cwd } := by
  obtain ⟨⟨bs, ps⟩, w, wsl, ba, pw, posh, ch, ce, cwd, tp, loc⟩ := env
  simp only at hp hw hposh ⊢
  subst hp hw hposh
  rfl

/-- `main_powershell` on a non-Windows host with `pwsh` present. -/
theorem main_powershell_nonwindows_run (env : Env) (c : String)
    (hp : env.fs.psScript = some c) (hw : env.isWindows = false)
    (hpw : env.pwshAvailable = true) :
    main_powershell env =
      { exitCode := env.childExit, stderrLines := [],
        tempCreated := true, tempExistsAfter := false,
        tempWritten := some { text := c, encoding := "utf-8" },
        unlinkCalls := 1, attemptedCommand := some ["pwsh", "-File", env.tempPath],
        attemptedCwd := some env.cwd, finalCwd := env.cwd } := by
  obtain ⟨⟨bs, ps⟩, w, wsl, ba, pw, posh, ch, ce, cwd, tp, loc⟩ := env
  simp only at hp hw hpw ⊢
  subst hp hw hpw
  by_cases hce : ce = 0
  · subst hce; rfl
  · simp [main_powershell, get_script_content, psInner, subprocessRun, cleanupTemp,
      outerHandlers, finishOutcome, initSt, writeTempFile, effectiveEncoding,
      psTempFileArgs, hce]

/-- `main_powershell` on a non-Windows host with `pwsh` absent:
guidance printed, `sys.exit(1)`, cleanup runs, `SystemExit` escapes
both outer handlers. -/
theorem main_powershell_nonwindows_pwsh_missing (env : Env) (c : String)
    (hp : env.fs.psScript = some c) (hw : env.isWindows = false)
    (hpw : env.pwshAvailable = false) :
    main_powershell env =
      { exitCode := 1, stderrLines := [pwshMissingMessage],
        tempCreated := true, tempExistsAfter := false,
        tempWritten := some { text := c, encoding := "utf-8" },
        unlinkCalls := 1, attemptedCommand := some ["pwsh", "-File", env.tempPath],
        attemptedCwd := some env.cwd, finalCwd := env.cwd } := by
  obtain ⟨⟨bs, ps⟩, w, wsl, ba, pw, posh, ch, ce, cwd, tp, loc⟩ := env
  simp only at hp hw hpw ⊢
  subst hp hw hpw
  rfl

/-! ### Cross-scenario helper lemmas -/

/-- Whenever `main_bash` creates the temp file, cleanup deletes it and
the unlink is attempted exactly once. -/
theorem main_bash_temp_never_survives (env : Env) :
    (main_bash env).tempCreated = true →
      (main_bash env).tempExistsAfter = false ∧ (main_bash env).unlinkCalls = 1 := by
  obtain ⟨⟨bs, ps⟩, w, wsl, ba, pw, posh, ch, ce, cwd, tp, loc⟩ := env
  rcases bs with _ | c
  · rw [main_bash_missing_script _ rfl]
    simp
  · cases ch
    · rw [main_bash_chmod_fail _ c rfl rfl]
      exact fun _ => ⟨rfl, rfl⟩
    · cases w
      · cases ba
        · rw [main_bash_nonwindows_bash_missing _ c rfl rfl rfl rfl]
          exact fun _ => ⟨rfl, rfl⟩
        · rw [main_bash_nonwindows_run _ c rfl rfl rfl rfl]
          exact fun _ => ⟨rfl, rfl⟩
      · cases wsl
        · rw [main_bash_windows_wsl_missing _ c rfl rfl rfl rfl]
          exact fun _ => ⟨rfl, rfl⟩
        · rw [main_bash_windows_run _ c rfl rfl rfl rfl]
          exact fun _ => ⟨rfl, rfl⟩

/-- Whenever `main_powershell` creates the temp file, cleanup deletes
it and the unlink is attempted exactly once. -/
theorem main_powershell_temp_never_survives (env : Env) :
    (main_powershell env).tempCreated = true →
      (main_powershell env).tempExistsAfter = false ∧ (main_powershell env).unlinkCalls = 1 := by
  obtain ⟨⟨bs, ps⟩, w, wsl, ba, pw, posh, ch, ce, cwd, tp, loc⟩ := env
  rcases ps with _ | c
  · rw [main_powershell_missing_script _ rfl]
    simp
  · cases w
    · cases pw
      · rw [main_powershell_nonwindows_pwsh_missing _ c rfl rfl rfl]
        exact fun _ => ⟨rfl, rfl⟩
      · rw [main_powershell_nonwindows_run _ c rfl rfl rfl]
        exact fun _ => ⟨rfl, rfl⟩
    · cases posh
      · rw [main_powershell_windows_missing _ c rfl rfl rfl]
        exact fun _ => ⟨rfl, rfl⟩
      · rw [main_powershell_windows_run _ c rfl rfl rfl]
        exact fun _ => ⟨rfl, rfl⟩

/-- Whatever happens later, the temp file `main_bash` writes holds the
located content, encoded with the locale's preferred encoding (no
`encoding` keyword is passed for the `.bash` temp file). -/
theorem main_bash_tempWritten_eq (env : Env) (c : String)
    (hb : env.fs.bashScript = some c) :
    (main_bash env).tempWritten = some { text := c, encoding := env.localeEncoding } := by
  obtain ⟨⟨bs, ps⟩, w, wsl, ba, pw, posh, ch, ce, cwd, tp, loc⟩ := env
  simp only at hb
  subst hb
  cases ch
  · rw [main_bash_chmod_fail _ c rfl rfl]
  · cases w
    · cases ba
      · rw [main_bash_nonwindows_bash_missing _ c rfl rfl rfl rfl]
      · rw [main_bash_nonwindows_run _ c rfl rfl rfl rfl]
    · cases wsl
      · rw [main_bash_windows_wsl_missing _ c rfl rfl rfl rfl]
      · rw [main_bash_windows_run _ c rfl rfl rfl rfl]

/-- Whatever happens later, the temp file `main_powershell` writes
holds the located content, UTF-8-encoded (`encoding='utf-8'`). -/
theorem main_powershell_tempWritten_eq (env : Env) (c : String)
    (hp : env.fs.psScript = some c) :
    (main_powershell env).tempWritten = some { text := c, encoding := "utf-8" } := by
  obtain ⟨⟨bs, ps⟩, w, wsl, ba, pw, posh, ch, ce, cwd, tp, loc⟩ := env
  simp only at hp
  subst hp
  cases w
  · cases pw
    · rw [main_powershell_nonwindows_pwsh_missing _ c rfl rfl rfl]
    · rw [main_powershell_nonwindows_run _ c rfl rfl rfl]
  · cases posh
    · rw [main_powershell_windows_missing _ c rfl rfl rfl]
    · rw [main_powershell_windows_run _ c rfl rfl rfl]

/-- Whenever the inner body of `main_bash` runs past `chmod`, the
`subprocess.run` call receives the table's command and the caller's
working directory, and the working directory is left unchanged. -/
theorem main_bash_attempted (env : Env) (c : String)
    (hb : env.fs.bashScript = some c) (hch : env.chmodOk = true) :
    (main_bash env).attemptedCommand = some (bashCommand env.isWindows env.tempPath) ∧
    (main_bash env).attemptedCwd = some env.cwd ∧
    (main_bash env).finalCwd = env.cwd := by
  cases hw : env.isWindows
  · cases hba : env.bashAvailable
    · rw [main_bash_nonwindows_bash_missing env c hb hw hba hch]
      exact ⟨by simp [bashCommand, hw], rfl, rfl⟩
    · rw [main_bash_nonwindows_run env c hb hw hba hch]
      exact ⟨by simp [bashCommand, hw], rfl, rfl⟩
  · cases hwsl : env.wslAvailable
    · rw [main_bash_windows_wsl_missing env c hb hw hwsl hch]
      exact ⟨by simp [bashCommand, hw], rfl, rfl⟩
    · rw [main_bash_windows_run env c hb hw hwsl hch]
      exact ⟨by simp [bashCommand, hw], rfl, rfl⟩

/-- `main_powershell` analogue of `main_bash_attempted`. -/
theorem main_powershell_attempted (env : Env) (c : String)
    (hp : env.fs.psScript = some c) :
    (main_powershell env).attemptedCommand = some (powershellCommand env.isWindows env.tempPath) ∧
    (main_powershell env).attemptedCwd = some env.cwd ∧
    (main_powershell env).finalCwd = env.cwd := by
  cases hw : env.isWindows
  · cases hpw : env.pwshAvailable
    · rw [main_powershell_nonwindows_pwsh_missing env c hp hw hpw]
      exact ⟨by simp [powershellCommand, hw], rfl, rfl⟩
    · rw [main_powershell_nonwindows_run env c hp hw hpw]
      exact ⟨by simp [powershellCommand, hw], rfl, rfl⟩
  · cases hposh : env.powershellAvailable
    · rw [main_powershell_windows_missing env c hp hw hposh]
      exact ⟨by simp [powershellCommand, hw], rfl, rfl⟩
    · rw [main_powershell_windows_run env c hp hw hposh]
      exact ⟨by simp [powershellCommand, hw], rfl, rfl⟩

/-- The temp-file path is the last command-line argument in both rows
of the bash decision table. -/
theorem bashCommand_getLast (w : Bool) (p : String) :
    (bashCommand w p).getLast? = some p := by
  cases w <;> rfl

/-- The temp-file path is the last command-line argument in both rows
of the PowerShell decision table. -/
theorem powershellCommand_getLast (w : Bool) (p : String) :
    (powershellCommand w p).getLast? = some p := by
  cases w <;> rfl

/-! ### The claims -/

/-- C1: for either entry point, when the required interpreter is
present and the child exits with code N (0 ≤ N ≤ 255), the launcher
terminates with exit code exactly N — normal return (exit 0) for N = 0,
the `CalledProcessError` handler's `sys.exit(e.returncode)` otherwise. -/
theorem c1_exit_code_mirrors_child (env : Env) (N : Nat) (cb cp : String)
    (hN : N ≤ 255) (hce : env.childExit = N)
    (hb : env.fs.bashScript = some cb) (hp : env.fs.psScript = some cp)
    (hch : env.chmodOk = true)
    (hbi : (if env.isWindows then env.wslAvailable else env.bashAvailable) = true)
    (hpi : (if env.isWindows then env.powershellAvailable else env.pwshAvailable) = true) :
    (main_bash env).exitCode = N ∧ (main_powershell env).exitCode = N := by
  subst hce
  cases hw : env.isWindows
  · rw [hw] at hbi hpi
    simp only [Bool.false_eq_true, if_false] at hbi hpi
    rw [main_bash_nonwindows_run env cb hb hw hbi hch,
        main_powershell_nonwindows_run env cp hp hw hpi]
    exact ⟨rfl, rfl⟩
  · rw [hw] at hbi hpi
    simp only [if_true] at hbi hpi
    rw [main_bash_windows_run env cb hb hw hbi hch,
        main_powershell_windows_run env cp hp hw hpi]
    exact ⟨rfl, rfl⟩

theorem c1_witness :
    (main_bash { sampleEnv with childExit := 7 }).exitCode = 7 ∧
    (main_powershell { sampleEnv with childExit := 7 }).exitCode = 7 :=
  c1_exit_code_mirrors_child { sampleEnv with childExit := 7 } 7 "echo ok" "Write-Host ok"
    (by decide) rfl rfl rfl rfl rfl rfl

/-- C2: for either entry point, whenever the temporary script file was
created, it no longer exists when the invocation ends, on every exit
path (normal return, child failure, missing interpreter, chmod failure,
or any other exception after materialization). -/
theorem c2_temp_file_cleaned (env : Env) :
    ((main_bash env).tempCreated = true → (main_bash env).tempExistsAfter = false) ∧
    ((main_powershell env).tempCreated = true → (main_powershell env).tempExistsAfter = false) :=
  ⟨fun h => (main_bash_temp_never_survives env h).1,
   fun h => (main_powershell_temp_never_survives env h).1⟩

theorem c2_witness :
    (main_bash sampleEnv).tempExistsAfter = false ∧
    (main_powershell sampleEnv).tempExistsAfter = false :=
  ⟨(c2_temp_file_cleaned sampleEnv).1 rfl, (c2_temp_file_cleaned sampleEnv).2 rfl⟩

/-- C3: whenever the required interpreter binary cannot be located
(WSL absent on Windows for the bash entry point, bash absent on
non-Windows, pwsh absent on non-Windows for the PowerShell entry
point), the launcher exits with code 1 and stderr is non-empty. -/
theorem c3_interpreter_missing_exit1 (env : Env) (cb cp : String)
    (hb : env.fs.bashScript = some cb) (hp : env.fs.psScript = some cp)
    (hch : env.chmodOk = true) :
    (env.isWindows = true → env.wslAvailable = false →
      (main_bash env).exitCode = 1 ∧ (main_bash env).stderrLines ≠ []) ∧
    (env.isWindows = false → env.bashAvailable = false →
      (main_bash env).exitCode = 1 ∧ (main_bash env).stderrLines ≠ []) ∧
    (env.isWindows = false → env.pwshAvailable = false →
      (main_powershell env).exitCode = 1 ∧ (main_powershell env).stderrLines ≠ []) := by
  refine ⟨fun hw hwsl => ?_, fun hw hba => ?_, fun hw hpw => ?_⟩
  · rw [main_bash_windows_wsl_missing env cb hb hw hwsl hch]
    exact ⟨rfl, by simp⟩
  · rw [main_bash_nonwindows_bash_missing env cb hb hw hba hch]
    exact ⟨rfl, by simp⟩
  · rw [main_powershell_nonwindows_pwsh_missing env cp hp hw hpw]
    exact ⟨rfl, by simp⟩

theorem c3_witness :
    ((main_bash { sampleEnv with isWindows := true, wslAvailable := false }).exitCode = 1 ∧
      (main_bash { sampleEnv with isWindows := true, wslAvailable := false }).stderrLines ≠ []) ∧
    ((main_bash { sampleEnv with bashAvailable := false }).exitCode = 1 ∧
      (main_bash { sampleEnv with bashAvailable := false }).stderrLines ≠ []) ∧
    ((main_powershell { sampleEnv with pwshAvailable := false }).exitCode = 1 ∧
      (main_powershell { sampleEnv with pwshAvailable := false }).stderrLines ≠ []) :=
  ⟨(c3_interpreter_missing_exit1 { sampleEnv with isWindows := true, wslAvailable := false }
      "echo ok" "Write-Host ok" rfl rfl rfl).1 rfl rfl,
   (c3_interpreter_missing_exit1 { sampleEnv with bashAvailable := false }
      "echo ok" "Write-Host ok" rfl rfl rfl).2.1 rfl rfl,
   (c3_interpreter_missing_exit1 { sampleEnv with pwshAvailable := false }
      "echo ok" "Write-Host ok" rfl rfl rfl).2.2 rfl rfl⟩

/-- C4 counterexample: on a host whose locale's preferred encoding is
latin-1, the bash entry point's temporary file is written latin-1, not
UTF-8 — `main_bash` passes no `encoding` keyword to
`NamedTemporaryFile`, so the claim's "encoded as UTF-8 in both
entry-point variants" is false for the bash variant. -/
theorem c4_counterexample :
    (main_bash { sampleEnv with localeEncoding := "latin-1" }).tempWritten =
      some { text := "echo ok", encoding := "latin-1" } ∧
    ¬ ((main_bash { sampleEnv with localeEncoding := "latin-1" }).tempWritten =
      some { text := "echo ok", encoding := "utf-8" }) :=
  ⟨rfl, by decide⟩

/-- C4 (amended): materializing content C and reading it back yields
exactly C in both variants; the PowerShell variant's file is explicitly
UTF-8-encoded, while the bash variant's file uses the platform's
default locale encoding (UTF-8 not guaranteed). -/
theorem c4_roundtrip_and_encoding (env : Env) (cb cp : String)
    (hb : env.fs.bashScript = some cb) (hp : env.fs.psScript = some cp) :
    (main_bash env).tempWritten.map readTempFile = some cb ∧
    (main_bash env).tempWritten.map TempFile.encoding =
      some (effectiveEncoding bashTempFileArgs env.localeEncoding) ∧
    (main_powershell env).tempWritten.map readTempFile = some cp ∧
    (main_powershell env).tempWritten.map TempFile.encoding = some "utf-8" := by
  rw [main_bash_tempWritten_eq env cb hb, main_powershell_tempWritten_eq env cp hp]
  exact ⟨rfl, rfl, rfl, rfl⟩

theorem c4_witness :
    (main_bash sampleEnv).tempWritten.map readTempFile = some "echo ok" ∧
    (main_bash sampleEnv).tempWritten.map TempFile.encoding =
      some (effectiveEncoding bashTempFileArgs sampleEnv.localeEncoding) ∧
    (main_powershell sampleEnv).tempWritten.map readTempFile = some "Write-Host ok" ∧
    (main_powershell sampleEnv).tempWritten.map TempFile.encoding = some "utf-8" :=
  c4_roundtrip_and_encoding sampleEnv "echo ok" "Write-Host ok" rfl rfl

/-- C5: the interpreter command is selected solely by the host OS
according to the decision table — bash entry: `wsl bash <temp>` on
Windows, `bash <temp>` otherwise; PowerShell entry: `powershell
-ExecutionPolicy Bypass -File <temp>` on Windows, `pwsh -File <temp>`
otherwise. -/
theorem c5_command_table (env : Env) (cb cp : String)
    (hb : env.fs.bashScript = some cb) (hp : env.fs.psScript = some cp)
    (hch : env.chmodOk = true) :
    (main_bash env).attemptedCommand = some (bashCommand env.isWindows env.tempPath) ∧
    (main_powershell env).attemptedCommand = some (powershellCommand env.isWindows env.tempPath) ∧
    bashCommand true env.tempPath = ["wsl", "bash", env.tempPath] ∧
    bashCommand false env.tempPath = ["bash", env.tempPath] ∧
    powershellCommand true env.tempPath =
      ["powershell", "-ExecutionPolicy", "Bypass", "-File", env.tempPath] ∧
    powershellCommand false env.tempPath = ["pwsh", "-File", env.tempPath] :=
  ⟨(main_bash_attempted env cb hb hch).1, (main_powershell_attempted env cp hp).1,
   rfl, rfl, rfl, rfl⟩

theorem c5_witness :
    (main_bash sampleEnv).attemptedCommand =
      some (bashCommand sampleEnv.isWindows sampleEnv.tempPath) ∧
    (main_powershell sampleEnv).attemptedCommand =
      some (powershellCommand sampleEnv.isWindows sampleEnv.tempPath) ∧
    bashCommand true sampleEnv.tempPath = ["wsl", "bash", sampleEnv.tempPath] ∧
    bashCommand false sampleEnv.tempPath = ["bash", sampleEnv.tempPath] ∧
    powershellCommand true sampleEnv.tempPath =
      ["powershell", "-ExecutionPolicy", "Bypass", "-File", sampleEnv.tempPath] ∧
    powershellCommand false sampleEnv.tempPath = ["pwsh", "-File", sampleEnv.tempPath] :=
  c5_command_table sampleEnv "echo ok" "Write-Host ok" rfl rfl rfl

/-- C6: `get_script_content` raises `FileNotFoundError` for an absent
script and returns the file's text (read with UTF-8) for a present one,
with no side effects (it is a pure function of the packaged tree); when
the script is absent the entry point exits 1 with a diagnostic. -/
theorem c6_missing_resource (fsm fsp : Fs) (c d : String) (envb envp : Env)
    (h1 : fsm.bashScript = none) (h2 : fsm.psScript = none)
    (h3 : fsp.bashScript = some c) (h4 : fsp.psScript = some d)
    (hb : envb.fs.bashScript = none) (hp : envp.fs.psScript = none) :
    get_script_content fsm "piphub.bash" =
      .error (.fileNotFound ("Script piphub.bash not found at " ++ scriptsPath "piphub.bash")) ∧
    get_script_content fsm "piphub.ps1" =
      .error (.fileNotFound ("Script piphub.ps1 not found at " ++ scriptsPath "piphub.ps1")) ∧
    get_script_content fsp "piphub.bash" = .ok c ∧
    get_script_content fsp "piphub.ps1" = .ok d ∧
    scriptReadEncoding = "utf-8" ∧
    (main_bash envb).exitCode = 1 ∧ (main_bash envb).stderrLines ≠ [] ∧
    (main_powershell envp).exitCode = 1 ∧ (main_powershell envp).stderrLines ≠ [] := by
  refine ⟨by simp [get_script_content, h1], by simp [get_script_content, h2],
    by simp [get_script_content, h3], by simp [get_script_content, h4], rfl, ?_, ?_, ?_, ?_⟩
  · rw [main_bash_missing_script envb hb]
  · rw [main_bash_missing_script envb hb]; simp
  · rw [main_powershell_missing_script envp hp]
  · rw [main_powershell_missing_script envp hp]; simp

theorem c6_witness :
    get_script_content { bashScript := none, psScript := none } "piphub.bash" =
      .error (.fileNotFound ("Script piphub.bash not found at " ++ scriptsPath "piphub.bash")) ∧
    get_script_content { bashScript := none, psScript := none } "piphub.ps1" =
      .error (.fileNotFound ("Script piphub.ps1 not found at " ++ scriptsPath "piphub.ps1")) ∧
    get_script_content sampleFs "piphub.bash" = .ok "echo ok" ∧
    get_script_content sampleFs "piphub.ps1" = .ok "Write-Host ok" ∧
    scriptReadEncoding = "utf-8" ∧
    (main_bash { sampleEnv with fs := { bashScript := none, psScript := none } }).exitCode = 1 ∧
    (main_bash { sampleEnv with fs := { bashScript := none, psScript := none } }).stderrLines ≠ [] ∧
    (main_powershell { sampleEnv with fs := { bashScript := none, psScript := none } }).exitCode = 1 ∧
    (main_powershell { sampleEnv with fs := { bashScript := none, psScript := none } }).stderrLines ≠ [] :=
  c6_missing_resource { bashScript := none, psScript := none } sampleFs
    "echo ok" "Write-Host ok"
    { sampleEnv with fs := { bashScript := none, psScript := none } }
    { sampleEnv with fs := { bashScript := none, psScript := none } }
    rfl rfl rfl rfl rfl rfl

/-- C7 counterexample: on a non-Windows host where `bash` itself is
missing, the diagnostic is the generic handler's
`Error: [Errno 2] No such file or directory: bash`, which does not name
the alternative entry point `piphub-ps` — refuting the claim's "on
every operating system including the non-Windows bash case". -/
theorem c7_counterexample :
    (main_bash { sampleEnv with bashAvailable := false }).exitCode = 1 ∧
    (main_bash { sampleEnv with bashAvailable := false }).stderrLines =
      ["Error: [Errno 2] No such file or directory: bash"] ∧
    containsSubstr "Error: [Errno 2] No such file or directory: bash" "piphub-ps" = false := by
  decide

/-- C7 (amended): the interpreter-missing diagnostic names the
alternative entry point in the cases with a dedicated handler — the
Windows bash entry point with WSL absent names `piphub-ps`, and the
non-Windows PowerShell entry point with pwsh absent names
`piphub-bash` — but on a non-Windows host with `bash` missing the
generic handler prints a diagnostic that does not name `piphub-ps`. -/
theorem c7_alternative_entry_point_named (env1 env2 : Env) (cb cp : String)
    (h1b : env1.fs.bashScript = some cb) (h1w : env1.isWindows = true)
    (h1wsl : env1.wslAvailable = false) (h1ch : env1.chmodOk = true)
    (h2b : env2.fs.bashScript = some cb) (h2p : env2.fs.psScript = some cp)
    (h2w : env2.isWindows = false) (h2ba : env2.bashAvailable = false)
    (h2pw : env2.pwshAvailable = false) (h2ch : env2.chmodOk = true) :
    ((main_bash env1).stderrLines = [wslMissingMessage] ∧
      containsSubstr wslMissingMessage "piphub-ps" = true) ∧
    ((main_powershell env2).stderrLines = [pwshMissingMessage] ∧
      containsSubstr pwshMissingMessage "piphub-bash" = true) ∧
    ((main_bash env2).stderrLines = ["Error: " ++ fileNotFoundMessage "bash"] ∧
      containsSubstr ("Error: " ++ fileNotFoundMessage "bash") "piphub-ps" = false) := by
  rw [main_bash_windows_wsl_missing env1 cb h1b h1w h1wsl h1ch,
      main_powershell_nonwindows_pwsh_missing env2 cp h2p h2w h2pw,
      main_bash_nonwindows_bash_missing env2 cb h2b h2w h2ba h2ch]
  exact ⟨⟨rfl, by decide⟩, ⟨rfl, by decide⟩, ⟨rfl, by decide⟩⟩

theorem c7_witness :
    ((main_bash { sampleEnv with isWindows := true, wslAvailable := false }).stderrLines =
        [wslMissingMessage] ∧
      containsSubstr wslMissingMessage "piphub-ps" = true) ∧
    ((main_powershell { sampleEnv with bashAvailable := false, pwshAvailable := false }).stderrLines =
        [pwshMissingMessage] ∧
      containsSubstr pwshMissingMessage "piphub-bash" = true) ∧
    ((main_bash { sampleEnv with bashAvailable := false, pwshAvailable := false }).stderrLines =
        ["Error: " ++ fileNotFoundMessage "bash"] ∧
      containsSubstr ("Error: " ++ fileNotFoundMessage "bash") "piphub-ps" = false) :=
  c7_alternative_entry_point_named
    { sampleEnv with isWindows := true, wslAvailable := false }
    { sampleEnv with bashAvailable := false, pwshAvailable := false }
    "echo ok" "Write-Host ok" rfl rfl rfl rfl rfl rfl rfl rfl rfl rfl

/-- C8: every invocation that reaches the Process Runner passes the
temp-file path as the final script argument and the launcher's current
working directory as the child's working directory, and the launcher's
working directory is unchanged at the end; the run is synchronous by
the sequential semantics of the embedding. -/
theorem c8_runner_cwd_and_script_arg (env : Env) (cb cp : String)
    (hb : env.fs.bashScript = some cb) (hp : env.fs.psScript = some cp)
    (hch : env.chmodOk = true) :
    ((main_bash env).attemptedCwd = some env.cwd ∧
      ((main_bash env).attemptedCommand.getD []).getLast? = some env.tempPath ∧
      (main_bash env).finalCwd = env.cwd) ∧
    ((main_powershell env).attemptedCwd = some env.cwd ∧
      ((main_powershell env).attemptedCommand.getD []).getLast? = some env.tempPath ∧
      (main_powershell env).finalCwd = env.cwd) := by
  obtain ⟨h1, h2, h3⟩ := main_bash_attempted env cb hb hch
  obtain ⟨g1, g2, g3⟩ := main_powershell_attempted env cp hp
  refine ⟨⟨h2, ?_, h3⟩, ⟨g2, ?_, g3⟩⟩
  · rw [h1]
    exact bashCommand_getLast env.isWindows env.tempPath
  · rw [g1]
    exact powershellCommand_getLast env.isWindows env.tempPath

theorem c8_witness :
    ((main_bash sampleEnv).attemptedCwd = some sampleEnv.cwd ∧
      ((main_bash sampleEnv).attemptedCommand.getD []).getLast? = some sampleEnv.tempPath ∧
      (main_bash sampleEnv).finalCwd = sampleEnv.cwd) ∧
    ((main_powershell sampleEnv).attemptedCwd = some sampleEnv.cwd ∧
      ((main_powershell sampleEnv).attemptedCommand.getD []).getLast? = some sampleEnv.tempPath ∧
      (main_powershell sampleEnv).finalCwd = sampleEnv.cwd) :=
  c8_runner_cwd_and_script_arg sampleEnv "echo ok" "Write-Host ok" rfl rfl rfl

/-- C9: when the embedded script is missing, the failure happens before
materialization: no temp file is created or written, no unlink is
attempted, the filesystem is unchanged, and the launcher exits 1 with
a diagnostic. -/
theorem c9_no_temp_on_locator_failure (envb envp : Env)
    (hb : envb.fs.bashScript = none) (hp : envp.fs.psScript = none) :
    ((main_bash envb).tempCreated = false ∧ (main_bash envb).tempWritten = none ∧
      (main_bash envb).unlinkCalls = 0 ∧ (main_bash envb).tempExistsAfter = false ∧
      (main_bash envb).exitCode = 1 ∧ (main_bash envb).stderrLines ≠ []) ∧
    ((main_powershell envp).tempCreated = false ∧ (main_powershell envp).tempWritten = none ∧
      (main_powershell envp).unlinkCalls = 0 ∧ (main_powershell envp).tempExistsAfter = false ∧
      (main_powershell envp).exitCode = 1 ∧ (main_powershell envp).stderrLines ≠ []) := by
  rw [main_bash_missing_script envb hb, main_powershell_missing_script envp hp]
  exact ⟨⟨rfl, rfl, rfl, rfl, rfl, by simp⟩, ⟨rfl, rfl, rfl, rfl, rfl, by simp⟩⟩

theorem c9_witness :
    ((main_bash { sampleEnv with fs := { bashScript := none, psScript := none } }).tempCreated = false ∧
      (main_bash { sampleEnv with fs := { bashScript := none, psScript := none } }).tempWritten = none ∧
      (main_bash { sampleEnv with fs := { bashScript := none, psScript := none } }).unlinkCalls = 0 ∧
      (main_bash { sampleEnv with fs := { bashScript := none, psScript := none } }).tempExistsAfter = false ∧
      (main_bash { sampleEnv with fs := { bashScript := none, psScript := none } }).exitCode = 1 ∧
      (main_bash { sampleEnv with fs := { bashScript := none, psScript := none } }).stderrLines ≠ []) ∧
    ((main_powershell { sampleEnv with fs := { bashScript := none, psScript := none } }).tempCreated = false ∧
      (main_powershell { sampleEnv with fs := { bashScript := none, psScript := none } }).tempWritten = none ∧
      (main_powershell { sampleEnv with fs := { bashScript := none, psScript := none } }).unlinkCalls = 0 ∧
      (main_powershell { sampleEnv with fs := { bashScript := none, psScript := none } }).tempExistsAfter = false ∧
      (main_powershell { sampleEnv with fs := { bashScript := none, psScript := none } }).exitCode = 1 ∧
      (main_powershell { sampleEnv with fs := { bashScript := none, psScript := none } }).stderrLines ≠ []) :=
  c9_no_temp_on_locator_failure
    { sampleEnv with fs := { bashScript := none, psScript := none } }
    { sampleEnv with fs := { bashScript := none, psScript := none } }
    rfl rfl

/-- C10: `sys.exit(1)` in the interpreter-missing branch raises
`SystemExit`, which is not an `Exception`: the `finally` cleanup still
runs (the temp file is gone, unlink attempted once), the `except
Exception` handler does not intercept it (stderr holds exactly the
guidance line, no `Error: ...` line), and the process exits 1. -/
theorem c10_systemexit_escapes_handler (env1 env2 : Env) (cb cp : String)
    (h1b : env1.fs.bashScript = some cb) (h1w : env1.isWindows = true)
    (h1wsl : env1.wslAvailable = false) (h1ch : env1.chmodOk = true)
    (h2p : env2.fs.psScript = some cp) (h2w : env2.isWindows = false)
    (h2pw : env2.pwshAvailable = false) :
    PyExn.isException (.systemExit 1) = false ∧
    ((main_bash env1).exitCode = 1 ∧ (main_bash env1).tempExistsAfter = false ∧
      (main_bash env1).unlinkCalls = 1 ∧ (main_bash env1).stderrLines = [wslMissingMessage]) ∧
    ((main_powershell env2).exitCode = 1 ∧ (main_powershell env2).tempExistsAfter = false ∧
      (main_powershell env2).unlinkCalls = 1 ∧
      (main_powershell env2).stderrLines = [pwshMissingMessage]) := by
  rw [main_bash_windows_wsl_missing env1 cb h1b h1w h1wsl h1ch,
      main_powershell_nonwindows_pwsh_missing env2 cp h2p h2w h2pw]
  exact ⟨rfl, ⟨rfl, rfl, rfl, rfl⟩, ⟨rfl, rfl, rfl, rfl⟩⟩

theorem c10_witness :
    PyExn.isException (.systemExit 1) = false ∧
    ((main_bash { sampleEnv with isWindows := true, wslAvailable := false }).exitCode = 1 ∧
      (main_bash { sampleEnv with isWindows := true, wslAvailable := false }).tempExistsAfter = false ∧
      (main_bash { sampleEnv with isWindows := true, wslAvailable := false }).unlinkCalls = 1 ∧
      (main_bash { sampleEnv with isWindows := true, wslAvailable := false }).stderrLines =
        [wslMissingMessage]) ∧
    ((main_powershell { sampleEnv with pwshAvailable := false }).exitCode = 1 ∧
      (main_powershell { sampleEnv with pwshAvailable := false }).tempExistsAfter = false ∧
      (main_powershell { sampleEnv with pwshAvailable := false }).unlinkCalls = 1 ∧
      (main_powershell { sampleEnv with pwshAvailable := false }).stderrLines =
        [pwshMissingMessage]) :=
  c10_systemexit_escapes_handler
    { sampleEnv with isWindows := true, wslAvailable := false }
    { sampleEnv with pwshAvailable := false }
    "echo ok" "Write-Host ok" rfl rfl rfl rfl rfl rfl rfl

end Piphub
